import Mathlib

/-!
# Verification of the GDL-Web job orchestration engine

A shallow embedding of the job orchestration code of the GDL-Web
repository (`app/services/download_service.py`,
`app/services/progress_parser.py`, `app/services/download_service_adapter.py`,
`app/services/cookie_manager.py`) together with theorems settling the
frozen specification claims.

Modelling conventions:
* Python strings are modelled as `String` / `List Char`; `str.lower` and
  `str.strip` are modelled over ASCII, which covers every pattern the code
  compares against.
* Python dict-backed job records become a structure of `Option` fields:
  `none` models "key absent or value `None`"; `_set_status` merges become
  field updates.
* `round(x)` on `current / total * 100` is modelled as exact rational
  round-half-to-even (`roundHalfEven`), the rounding mode Python's `round`
  implements.
* The external process is abstracted by an attempt function
  `Nat → AttemptOutcome` giving the exit code and buffered output of each
  spawned attempt; timestamps are abstract naturals.
-/

set_option autoImplicit false

namespace GDLWeb

/-! ## Character and string helpers (ASCII models of Python `str` methods) -/

/-- ASCII whitespace, the characters Python's `\s` / `str.strip` treat as
whitespace in the output the code parses. -/
def isWsC (c : Char) : Bool :=
  c == ' ' || c == '\t' || c == '\n' || c == '\r' || c == '\x0b' || c == '\x0c'

def isDigitC (c : Char) : Bool :=
  '0' ≤ c && c ≤ '9'

/-- ASCII model of `str.lower` on one character. -/
def lowerChar (c : Char) : Char :=
  if 'A' ≤ c && c ≤ 'Z' then Char.ofNat (c.toNat + 32) else c

def lowerL (l : List Char) : List Char :=
  l.map lowerChar

/-- Model of `str.strip()` (ASCII whitespace). -/
def stripL (l : List Char) : List Char :=
  ((l.dropWhile isWsC).reverse.dropWhile isWsC).reverse

/-- `leadsWith pat l` is true when `pat` starts `l` (model of `str.startswith`). -/
def leadsWith : List Char → List Char → Bool
  | [], _ => true
  | _ :: _, [] => false
  | a :: as, b :: bs => a == b && leadsWith as bs

/-- `occursIn needle hay` models Python's `needle in hay` on strings. -/
def occursIn (needle : List Char) : List Char → Bool
  | [] => needle.isEmpty
  | c :: rest => leadsWith needle (c :: rest) || occursIn needle rest

/-- `endsWithL suf l` models `str.endswith`. -/
def endsWithL (suf l : List Char) : Bool :=
  leadsWith suf.reverse l.reverse

def digitsToNat (ds : List Char) : Nat :=
  ds.foldl (fun acc c => acc * 10 + (c.toNat - 48)) 0

/-- Consume a literal; `none` when the input does not start with it. -/
def dropLit : List Char → List Char → Option (List Char)
  | [], cs => some cs
  | _ :: _, [] => none
  | a :: as, c :: cs => if a == c then dropLit as cs else none

/-- Consume `\s+` (one or more whitespace characters, maximal munch). -/
def expectWs1 (cs : List Char) : Option (List Char) :=
  let s := cs.span isWsC
  if s.1.isEmpty then none else some s.2

/-- Consume `(\d+)` (one or more digits, maximal munch) returning its value. -/
def expectDigits (cs : List Char) : Option (Nat × List Char) :=
  let s := cs.span isDigitC
  if s.1.isEmpty then none else some (digitsToNat s.1, s.2)

/-- Model of `str.strip()` at the `String` level. -/
def stripS (s : String) : String :=
  (stripL s.toList).asString

/-! ## Output Parser (`progress_parser.py`) -/

/-- Attempt to match the regex `\[download\]\s+(\d+)\s+of\s+(\d+)` at the
start of the input.  The regex's character classes are pairwise disjoint
from the literals that follow them, so greedy maximal munch is exact. -/
def matchCounterAt (cs : List Char) : Option (Nat × Nat) := do
  let r1 ← dropLit "[download]".toList cs
  let r2 ← expectWs1 r1
  let (n, r3) ← expectDigits r2
  let r4 ← expectWs1 r3
  let r5 ← dropLit "of".toList r4
  let r6 ← expectWs1 r5
  let (m, _) ← expectDigits r6
  return (n, m)

/-- Model of `re.search(r"\[download\]\s+(\d+)\s+of\s+(\d+)", line)`:
try the pattern at each start position, leftmost match first. -/
def searchCounter : List Char → Option (Nat × Nat)
  | [] => none
  | c :: rest =>
    match matchCounterAt (c :: rest) with
    | some v => some v
    | none => searchCounter rest

/-- Round-half-to-even of the rational `num / den` (`den > 0`), the rounding
Python's `round` applies in `round(current / total * 100)`. -/
def roundHalfEven (num den : Nat) : Nat :=
  let q := num / den
  let r := num % den
  if 2 * r < den then q
  else if den < 2 * r then q + 1
  else if q % 2 = 0 then q else q + 1

/-- The dictionary of status updates returned by `parse_progress`; `none`
models "key absent". -/
structure Updates where
  progress : Option Nat := none
  files_downloaded : Option Nat := none
  total_files : Option Nat := none
  message : Option String := none
  deriving DecidableEq

/-- The media-file suffixes of branch 2 of `parse_progress`. -/
def extSuffixes : List String :=
  [".webp", ".jpg", ".jpeg", ".png", ".mp4", ".webm"]

def endsWithAnyExt (l : List Char) : Bool :=
  extSuffixes.any (fun e => endsWithL e.toList l)

/-- The update dictionary of the exact-counter branch of `parse_progress`. -/
def counter_updates (current total : Nat) : Updates :=
  { progress := some (roundHalfEven (current * 100) total)
    files_downloaded := some current
    total_files := some total
    message := some ("file " ++ Nat.repr current ++ "/" ++ Nat.repr total) }

/-- The update dictionary of the file-extension branch of `parse_progress`. -/
def ext_updates (f : Nat) : Updates :=
  { files_downloaded := some f
    progress := some (min 90 (10 + f * 5))
    message := some ("Downloaded file " ++ Nat.repr f) }

/-- Embedding of `parse_progress(line, files_so_far)`.

Branch 1 matches `[download] N of M`; a zero total raises
`ZeroDivisionError` in Python, which the function's `except` handler turns
into "counter unchanged, empty updates", modelled by the `total = 0` case.
Branch 2: stripped lowercased line ending in a media suffix.  Branch 3/4:
fixed stage percentages.  Otherwise no delta. -/
def parse_progress (line : String) (files_so_far : Nat) : Nat × Updates :=
  match searchCounter line.toList with
  | some nm =>
    if nm.2 = 0 then (files_so_far, {})
    else (nm.1, counter_updates nm.1 nm.2)
  | none =>
    if endsWithAnyExt (lowerL (stripL line.toList)) then
      (files_so_far + 1, ext_updates (files_so_far + 1))
    else if occursIn "extracting".toList (lowerL line.toList) then
      (files_so_far, { progress := some 5, message := some "Extracting metadata …" })
    else if occursIn "processing".toList (lowerL line.toList) then
      (files_so_far, { progress := some 98, message := some "Finalising …" })
    else (files_so_far, {})

/-- The progress values emitted while feeding a line sequence through
`parse_progress`, threading the running file counter exactly as
`_download_worker` does. -/
def progressTrace : List String → Nat → List Nat
  | [], _ => []
  | l :: rest, c =>
    match parse_progress l c with
    | (c2, u) =>
      match u.progress with
      | some v => v :: progressTrace rest c2
      | none => progressTrace rest c2

/-- A line handled by the file-extension branch of `parse_progress`:
no exact counter match and a recognized media suffix. -/
def isExtLine (l : String) : Bool :=
  (searchCounter l.toList).isNone && endsWithAnyExt (lowerL (stripL l.toList))

/-! ## File list extraction (`extract_downloaded_files`) -/

def isSlashC (c : Char) : Bool :=
  c == '/' || c == '\\'

/-- The characters after the last `/` or `\` of the line, `none` when the
line has no slash. -/
def afterLastSlash : List Char → Option (List Char)
  | [] => none
  | c :: rest =>
    match afterLastSlash rest with
    | some s => some s
    | none => if isSlashC c then some rest else none

/-- The extension alternation of the `file_pattern` regex in
`extract_downloaded_files`. -/
def filePatternExts : List String :=
  ["jpg", "jpeg", "png", "gif", "webp", "mp4", "webm", "mov", "avi", "flv",
   "wmv", "mkv", "mp3", "wav", "flac", "txt", "json", "xml", "pdf", "html",
   "htm", "svg", "bmp", "ico"]

/-- Model of `file_pattern.match(line)` for the anchored regex
`^.*[\/\\][^\/\\]+\.(jpg|…|ico)$` with `IGNORECASE`: the line contains a
slash, and the segment after its last slash is some nonempty slash-free
text followed by a dot and one of the extensions. -/
def ext_file_pattern (l : List Char) : Bool :=
  match afterLastSlash l with
  | none => false
  | some seg =>
    filePatternExts.any (fun e =>
      endsWithL ('.' :: e.toList) (lowerL seg) && e.toList.length + 2 ≤ seg.length)

/-- The remainder of the list after the first occurrence of `sep`. -/
def dropAfterFirst (sep : List Char) : List Char → Option (List Char)
  | [] => none
  | c :: rest =>
    if leadsWith sep (c :: rest) then some (List.drop sep.length (c :: rest))
    else dropAfterFirst sep rest

/-- The elements before the first occurrence of `sep` (all of them when
`sep` does not occur). -/
def takeUntilSep (sep : List Char) : List Char → List Char
  | [] => []
  | c :: rest =>
    if leadsWith sep (c :: rest) then [] else c :: takeUntilSep sep rest

/-- `line.split(" -> ")[1].strip()` for a line known to contain `" -> "`. -/
def arrowSecondPart (ls : List Char) : List Char :=
  stripL (takeUntilSep " -> ".toList ((dropAfterFirst " -> ".toList ls).getD []))

/-- Core of `extract_downloaded_files` over char lists; each line is
stripped, then matched against the `"Downloading … -> …"` form and the
path regex with the log-line exclusions of the source. -/
def extract_core : List (List Char) → List (List Char)
  | [] => []
  | l :: rest =>
    let ls := stripL l
    (if occursIn "Downloading".toList ls && occursIn " -> ".toList ls then
      [arrowSecondPart ls]
    else if ext_file_pattern ls then
      (if !leadsWith "[".toList ls && !ls.contains ' ' then [ls]
       else if !leadsWith "[".toList ls && !leadsWith "Downloading".toList ls then [ls]
       else [])
    else []) ++ extract_core rest

/-- Embedding of `extract_downloaded_files(stdout_lines)`. -/
def extract_downloaded_files (stdout_lines : List String) : List String :=
  (extract_core (stdout_lines.map String.toList)).map List.asString

/-! ## Failure classification (`_is_retriable_error`, network detection) -/

/-- The retriable error patterns of `_is_retriable_error`. -/
def retriablePatterns : List String :=
  ["timeout", "connection error", "network", "connection refused",
   "connection reset", "temporary failure", "server error",
   "service unavailable", "5xx", "too many requests", "rate limit",
   "429", "503", "502", "gateway", "cloudflare", "captcha"]

/-- Embedding of `_is_retriable_error(error_message)`. -/
def is_retriable_error (error_message : String) : Bool :=
  if error_message = "" then false
  else retriablePatterns.any
    (fun p => occursIn p.toList (lowerL error_message.toList))

/-- The inline network-error patterns scanned against every output line in
`_download_worker`. -/
def workerNetPatterns : List String :=
  ["connection error", "timeout", "network", "connection refused", "connection reset"]

def line_has_network_error (l : String) : Bool :=
  workerNetPatterns.any (fun p => occursIn p.toList (lowerL l.toList))

/-! ## Job records (`download_status` entries) -/

/-- One job record of the `download_status` dictionary; `none` models a
key that is absent or set to `None`. -/
structure JobRecord where
  id : Option String := none
  url : Option String := none
  status : Option String := none
  progress : Option Nat := none
  message : Option String := none
  start_time : Option Nat := none
  end_time : Option Nat := none
  files_downloaded : Option Nat := none
  total_size : Option Nat := none
  total_files : Option Nat := none
  error : Option String := none
  retry_count : Option Nat := none
  downloaded_files_list : Option (List String) := none
  output : Option String := none
  output_dir : Option String := none
  session_id : Option String := none
  network_issue : Option Bool := none
  deriving DecidableEq

/-- The record inserted by `start_download` before the worker launches. -/
def initial_record (idv url : String) (t0 : Nat) (sid : Option String)
    (outdir : String) : JobRecord :=
  { id := some idv
    status := some "starting"
    progress := some 0
    message := some "Initializing download..."
    url := some url
    start_time := some t0
    end_time := none
    files_downloaded := some 0
    total_size := some 0
    error := none
    output_dir := some outdir
    session_id := sid }

/-- Dictionary-style merge of a `parse_progress` delta into a record:
every key present in the delta overwrites the field, others are kept. -/
def applyUpdates (r : JobRecord) (u : Updates) : JobRecord :=
  { r with
    progress := match u.progress with | some v => some v | none => r.progress
    files_downloaded :=
      match u.files_downloaded with | some v => some v | none => r.files_downloaded
    total_files := match u.total_files with | some v => some v | none => r.total_files
    message := match u.message with | some v => some v | none => r.message }

/-- Feeding the stdout lines of one attempt through `parse_progress`,
merging each delta into the record as the worker's driving loop does. -/
def foldParse : List String → JobRecord → Nat → JobRecord × Nat
  | [], r, c => (r, c)
  | l :: rest, r, c =>
    match parse_progress l c with
    | (c2, u) => foldParse rest (applyUpdates r u) c2

/-! ## The download worker (`_download_worker`) -/

/-- Abstraction of one spawned external-tool run: its exit code and the
lines the two reader tasks collected (already `rstrip`ped of newlines). -/
structure AttemptOutcome where
  exitCode : Int
  stdoutLines : List String
  stderrLines : List String

/-- `"\n".join(stderr_lines) or "Unknown error occurred"` — the stderr
lines are appended stripped by the driving loop. -/
def joinErr (a : AttemptOutcome) : String :=
  let j := String.intercalate "\n" (a.stderrLines.map stripS)
  if j = "" then "Unknown error occurred" else j

/-- `network_error_detected` after an attempt: some output line on either
stream contained one of the inline network patterns. -/
def detect_network_error (a : AttemptOutcome) : Bool :=
  a.stdoutLines.any line_has_network_error || a.stderrLines.any line_has_network_error

def set_downloading (r : JobRecord) : JobRecord :=
  { r with status := some "downloading", message := some "Starting gallery-dl process..." }

def set_retrying (r : JobRecord) (rc maxRetries : Nat) : JobRecord :=
  { r with
    status := some "retrying"
    message := some ("Retrying download (Attempt " ++ Nat.repr rc ++ "/"
      ++ Nat.repr maxRetries ++ ")...")
    retry_count := some rc }

/-- The `return_code == 0` status update: completed, progress 100, file
list extracted from the buffered (stripped) stdout lines. -/
def complete_update (r : JobRecord) (stdoutStripped : List String)
    (rc tEnd : Nat) : JobRecord :=
  { r with
    status := some "completed"
    message := some "Download completed successfully!"
    progress := some 100
    end_time := some tEnd
    output := some (String.intercalate "\n" stdoutStripped)
    files_downloaded := some (extract_downloaded_files stdoutStripped).length
    downloaded_files_list := some (extract_downloaded_files stdoutStripped)
    retry_count := some rc }

/-- The terminal failure update of the retry loop. -/
def fail_update (r : JobRecord) (err : String) (rc tEnd : Nat) : JobRecord :=
  { r with
    status := some "failed"
    message := some ("Download failed after " ++ Nat.repr rc ++ " retries: " ++ err)
    end_time := some tEnd
    error := some err
    retry_count := some rc }

/-- The immediate failure update when `check_network_connectivity()` fails. -/
def fail_net (r : JobRecord) (tEnd : Nat) : JobRecord :=
  { r with
    status := some "failed"
    message := some "Network connectivity issue. Please check your internet connection."
    end_time := some tEnd
    error := some "Network connectivity issue" }

/-- The immediate failure update when `check_url_accessibility(url)` fails. -/
def fail_url (r : JobRecord) (url : String) (tEnd : Nat) : JobRecord :=
  { r with
    status := some "failed"
    message := some ("URL " ++ url
      ++ " is not accessible. The site might be down or blocking requests.")
    end_time := some tEnd
    error := some "URL not accessible" }

/-- The worker's final job record together with the number of external
processes it spawned. -/
structure WorkerResult where
  record : JobRecord
  attemptsSpawned : Nat
  deriving DecidableEq

/-- The retry loop of `_download_worker` (`while retry_count <= max_retries`).

Fuel counts the remaining loop iterations; the loop is entered with
`maxRetries + 1` fuel and `retry_count = 0`, matching the source exactly:
every iteration spawns one attempt, exit code 0 completes, a retriable
non-zero exit with retries remaining increments `retry_count` and loops,
anything else fails terminally with the joined stderr text. -/
def workerLoop (attempt : Nat → AttemptOutcome) (maxRetries tEnd : Nat) :
    Nat → JobRecord → Nat → Nat → WorkerResult
  | 0, r, _, spawned => ⟨r, spawned⟩
  | fuel + 1, r, rc, spawned =>
    if (attempt rc).exitCode = 0 then
      ⟨complete_update
        ((foldParse (attempt rc).stdoutLines
          (if 0 < rc then set_retrying r rc maxRetries else set_downloading r) 0).1)
        ((attempt rc).stdoutLines.map stripS) rc tEnd, spawned + 1⟩
    else if (detect_network_error (attempt rc)
          || is_retriable_error (joinErr (attempt rc))) = true ∧ rc < maxRetries then
      workerLoop attempt maxRetries tEnd fuel
        ((foldParse (attempt rc).stdoutLines
          (if 0 < rc then set_retrying r rc maxRetries else set_downloading r) 0).1)
        (rc + 1) (spawned + 1)
    else
      ⟨fail_update
        ((foldParse (attempt rc).stdoutLines
          (if 0 < rc then set_retrying r rc maxRetries else set_downloading r) 0).1)
        (joinErr (attempt rc)) rc tEnd, spawned + 1⟩

/-- Embedding of `_download_worker`: the two preflight checks, then the
retry loop.  `netOk` and `targetOk` abstract `check_network_connectivity()`
and `check_url_accessibility(url)`. -/
def download_worker (netOk targetOk : Bool) (url : String)
    (attempt : Nat → AttemptOutcome) (maxRetries tEnd : Nat)
    (r0 : JobRecord) : WorkerResult :=
  if netOk = false then ⟨fail_net r0 tEnd, 0⟩
  else if targetOk = false then ⟨fail_url r0 url tEnd, 0⟩
  else workerLoop attempt maxRetries tEnd (maxRetries + 1) r0 0 0

/-- `self.max_retries = 3` in `DownloadService.__init__`. -/
def defaultMaxRetries : Nat := 3

/-! ## Service state (`DownloadService` maps, cancel and delete) -/

/-- First-match association-list lookup, the model of a Python dict read
(keys are unique in a dict, so first match is the match). -/
def alookup {α : Type} (k : String) : List (String × α) → Option α
  | [] => none
  | (k2, v) :: rest => if k2 = k then some v else alookup k rest

/-- Removal of a key, the model of `dict.pop(k, None)`. -/
def removeAllKey {α : Type} (k : String) : List (String × α) → List (String × α)
  | [] => []
  | (k2, v) :: rest =>
    if k2 = k then removeAllKey k rest else (k2, v) :: removeAllKey k rest

/-- Boolean string membership (Python's `in` on dict keys / key sets). -/
def strElem (k : String) : List String → Bool
  | [] => false
  | s :: rest => s == k || strElem k rest

/-- Removal of a string from a key set. -/
def removeAllStr (k : String) : List String → List String
  | [] => []
  | s :: rest => if s = k then removeAllStr k rest else s :: removeAllStr k rest

/-- Removal from disk of every path in `files` (`os.remove` per file). -/
def removePaths (files : List String) : List String → List String
  | [] => []
  | p :: rest =>
    if strElem p files then removePaths files rest else p :: removePaths files rest

/-- `_set_status(id, **kwargs)`: merge into the existing record, creating
the entry when absent. -/
def setStatusRec (k : String) (f : JobRecord → JobRecord) :
    List (String × JobRecord) → List (String × JobRecord)
  | [] => [(k, f {})]
  | (k2, r) :: rest =>
    if k2 = k then (k2, f r) :: rest else (k2, r) :: setStatusRec k f rest

/-- The mutable state of a `DownloadService` instance relevant to the
claims: the job store, the live process-handle ids, which per-job cookie
ciphertext files exist, and which downloaded file paths exist on disk. -/
structure ServiceState where
  download_status : List (String × JobRecord)
  active_processes : List String
  cookieFiles : List String
  disk : List String
  deriving DecidableEq

/-- `get_download_status` / `_get_status_copy`: a deep-copy read of the
record, `None` when absent. -/
def get_download_status (s : ServiceState) (download_id : String) : Option JobRecord :=
  alookup download_id s.download_status

/-- The status update applied by `cancel_download` after terminating the
process. -/
def cancel_update (tEnd : Nat) (r : JobRecord) : JobRecord :=
  { r with
    status := some "cancelled"
    message := some "Download cancelled by user"
    end_time := some tEnd }

/-- Embedding of `cancel_download(download_id)`: only when a live process
handle exists is it terminated and popped and the record marked cancelled
with an end time; otherwise nothing happens and `False` is returned. -/
def cancel_download (s : ServiceState) (download_id : String) (tEnd : Nat) :
    Bool × ServiceState :=
  if strElem download_id s.active_processes then
    (true,
      { s with
        active_processes := removeAllStr download_id s.active_processes
        download_status := setStatusRec download_id (cancel_update tEnd) s.download_status })
  else (false, s)

/-- Embedding of `delete_download(download_id)`: pop and terminate any
live handle, delete the recorded downloaded files from disk, pop the
record, and remove the per-job cookie ciphertext file.  Always returns
`True`. -/
def delete_download (s : ServiceState) (download_id : String) : Bool × ServiceState :=
  let files :=
    match alookup download_id s.download_status with
    | some r => r.downloaded_files_list.getD []
    | none => []
  (true,
    { download_status := removeAllKey download_id s.download_status
      active_processes := removeAllStr download_id s.active_processes
      cookieFiles := removeAllStr download_id s.cookieFiles
      disk := removePaths files s.disk })

/-! ## Session isolation adapter (`download_service_adapter.py`) -/

/-- The state the adapter sees: the service's job store plus the
per-caller session ownership sets (`session['user_downloads']` keys). -/
structure AdapterState where
  store : List (String × JobRecord)
  sessions : List (String × List String)
  deriving DecidableEq

/-- The ownership set of one caller (empty when the session is fresh). -/
def sessionIds (st : AdapterState) (caller : String) : List String :=
  (alookup caller st.sessions).getD []

/-- `DownloadService.download_exists`: the store holds the id. -/
def service_download_exists (st : AdapterState) (download_id : String) : Bool :=
  (alookup download_id st.store).isSome

/-- Adapter `download_exists`: the id exists in the service *and* belongs
to the calling session. -/
def adapter_download_exists (st : AdapterState) (caller download_id : String) : Bool :=
  service_download_exists st download_id && strElem download_id (sessionIds st caller)

/-- The frontend status mapping applied by `get_download_status`. -/
def map_status_value (s : String) : String :=
  if s = "starting" then "in_progress"
  else if s = "downloading" then "in_progress"
  else if s = "processing" then "in_progress"
  else if s = "completed" then "completed"
  else if s = "failed" then "error"
  else if s = "error" then "error"
  else s

/-- The record normalisation of the adapter's `get_download_status`:
backfill `id`, `url`, `progress`, then map the status value. -/
def transform_status (download_id : String) (r : JobRecord) : JobRecord :=
  let r1 := if r.id = none then { r with id := some download_id } else r
  let r2 := if r1.url = none then { r1 with url := some "" } else r1
  let r3 := if r2.progress = none then { r2 with progress := some 0 } else r2
  match r3.status with
  | some s => { r3 with status := some (map_status_value s) }
  | none => r3

/-- Adapter `get_download_status`: not-found unless the id exists *and*
belongs to the calling session; `if not status_dict` treats an empty
record like a missing one. -/
def adapter_get_download_status (st : AdapterState) (caller download_id : String) :
    Option JobRecord :=
  if adapter_download_exists st caller download_id then
    match alookup download_id st.store with
    | none => none
    | some r => if r = {} then none else some (transform_status download_id r)
  else none

/-- Adapter `get_download`: reads the service store directly, with *no*
session-membership check (the method never touches the session). -/
def adapter_get_download (st : AdapterState) (download_id : String) :
    Option JobRecord :=
  match alookup download_id st.store with
  | none => none
  | some r => if r = {} then none else some r

/-- Adapter `list_all_downloads`: all store records filtered to those
whose `id` field is in the calling session's ownership set. -/
def adapter_list_all_downloads (st : AdapterState) (caller : String) : List JobRecord :=
  (st.store.map (fun p => p.2)).filter (fun r =>
    match r.id with
    | some i => strElem i (sessionIds st caller)
    | none => false)

/-! ## Cookie encryption (`cookie_manager.py`, `start_download`) -/

/-- Embedding of `encrypt_cookies(cookies_content, encryption_key)`.
The Fernet primitive is an external collaborator, abstracted as
`cipherEnc key plaintext`, whose `Except.error` case models any exception
(including a malformed key raising in the `Fernet` constructor); a falsy
(`None`/empty) key and any cipher exception both return the plaintext
unchanged, and the function never raises. -/
def encrypt_cookies (cipherEnc : String → String → Except String String)
    (cookies_content : String) (encryption_key : Option String) : String :=
  match encryption_key with
  | none => cookies_content
  | some k =>
    if k = "" then cookies_content
    else
      match cipherEnc k cookies_content with
      | Except.ok c => c
      | Except.error _ => cookies_content

/-- Embedding of `decrypt_cookies(encrypted_content, encryption_key)`,
symmetric to `encrypt_cookies`. -/
def decrypt_cookies (cipherDec : String → String → Except String String)
    (encrypted_content : String) (encryption_key : Option String) : String :=
  match encryption_key with
  | none => encrypted_content
  | some k =>
    if k = "" then encrypted_content
    else
      match cipherDec k encrypted_content with
      | Except.ok c => c
      | Except.error _ => encrypted_content

/-- The content of the per-job credential file `start_download` writes:
written only when both the cookies content and the key are truthy, and its
content is whatever `encrypt_cookies` returns. -/
def cookie_file_written (cipherEnc : String → String → Except String String)
    (cookies_content encryption_key : Option String) : Option String :=
  match cookies_content, encryption_key with
  | some cc, some k =>
    if cc = "" ∨ k = "" then none
    else some (encrypt_cookies cipherEnc cc (some k))
  | _, _ => none

/-! ## Claim C9: the Output Parser is total and the no-match case is a no-op -/

/-- C9: `parse_progress` is a pure total Lean function (it cannot raise and
has no side effects by construction; the Python `except` handler that
guarantees this is modelled by the `total = 0` branch), and on any line
matching none of the recognized patterns it returns the counter unchanged
with an empty status delta. -/
theorem parse_progress_no_match_no_delta (line : String) (c : Nat)
    (h1 : searchCounter line.toList = none)
    (h2 : endsWithAnyExt (lowerL (stripL line.toList)) = false)
    (h3 : occursIn "extracting".toList (lowerL line.toList) = false)
    (h4 : occursIn "processing".toList (lowerL line.toList) = false) :
    parse_progress line c = (c, {}) := by
  simp only [String.toList] at h1 h2 h3 h4
  simp [parse_progress, h1, h2, h3, h4]

/-- Witness for C9 at the unrecognized line `"hello world"`. -/
theorem parse_progress_no_match_no_delta_witness :
    parse_progress "hello world" 7 = (7, {}) :=
  parse_progress_no_match_no_delta "hello world" 7 (by decide) (by decide)
    (by decide) (by decide)

/-! ## Claim C6: the exact counter pattern -/

/-- C6 counterexample: the claim's own test lines carry the bare pattern
`"N of M"` without the `[download]` marker the code's regex requires, so
the parser leaves the counter unchanged, emits no progress, and the
two-line sequence ends with counter 0, not 10. -/
theorem counter_pattern_needs_marker :
    (parse_progress "[.] 3 of 10" 0).1 ≠ 3 ∧
    (parse_progress "[.] 3 of 10" 0).2.progress ≠ some 30 ∧
    progressTrace ["[.] 3 of 10", "[.] 10 of 10"] 0 = [] ∧
    (foldParse ["[.] 3 of 10", "[.] 10 of 10"] {} 0).2 = 0 := by
  decide

/-- C6 amended: for every output line in which the code's counter regex
`\[download\]\s+(\d+)\s+of\s+(\d+)` finds `N of M` with `M > 0`, the parser
returns new counter `N` and a delta with progress `round(N/M·100)`
(round-half-to-even), `files_downloaded = N`, `total_files = M`; feeding
`"[download] 3 of 10"` then `"[download] 10 of 10"` yields final progress
100 and file counter 10. -/
theorem counter_pattern_delta :
    (∀ (line : String) (c N M : Nat),
      searchCounter line.toList = some (N, M) → 0 < M →
      parse_progress line c = (N, counter_updates N M)) ∧
    (foldParse ["[download] 3 of 10", "[download] 10 of 10"] {} 0).2 = 10 ∧
    ((foldParse ["[download] 3 of 10", "[download] 10 of 10"] {} 0).1).progress
      = some 100 := by
  refine ⟨?_, by decide, by decide⟩
  intro line c N M h hM
  simp only [String.toList] at h
  simp [parse_progress, h, Nat.pos_iff_ne_zero.mp hM]

/-- Witness for C6 at the line `"[download] 5 of 8"` (progress 62 by
round-half-to-even on 62.5). -/
theorem counter_pattern_delta_witness :
    parse_progress "[download] 5 of 8" 0 = (5, counter_updates 5 8) ∧
    (counter_updates 5 8).progress = some 62 :=
  ⟨counter_pattern_delta.1 "[download] 5 of 8" 0 5 8 (by decide) (by decide),
   by decide⟩

/-! ## Claim C10: cookie encryption falls back to plaintext -/

/-- C10: for every cookies content and key, `encrypt_cookies` and
`decrypt_cookies` return the input unchanged whenever the key is
`None`/empty or the cipher operation raises, and neither raises (they are
total functions); consequently the per-job credential file written at
download start contains the plaintext when the cipher fails on a
truthy key. -/
theorem cookie_cipher_fallback
    (cipherEnc cipherDec : String → String → Except String String)
    (content k msg : String) :
    encrypt_cookies cipherEnc content none = content ∧
    encrypt_cookies cipherEnc content (some "") = content ∧
    decrypt_cookies cipherDec content none = content ∧
    decrypt_cookies cipherDec content (some "") = content ∧
    (k ≠ "" → cipherEnc k content = Except.error msg →
      encrypt_cookies cipherEnc content (some k) = content) ∧
    (k ≠ "" → cipherDec k content = Except.error msg →
      decrypt_cookies cipherDec content (some k) = content) ∧
    (content ≠ "" → k ≠ "" → cipherEnc k content = Except.error msg →
      cookie_file_written cipherEnc (some content) (some k) = some content) := by
  refine ⟨rfl, by simp [encrypt_cookies], rfl, by simp [decrypt_cookies], ?_, ?_, ?_⟩
  · intro hk he
    simp [encrypt_cookies, hk, he]
  · intro hk he
    simp [decrypt_cookies, hk, he]
  · intro hc hk he
    simp [cookie_file_written, hc, hk, encrypt_cookies, he]

/-- A cipher that always raises, modelling a malformed Fernet key. -/
def failingCipher : String → String → Except String String :=
  fun _ _ => Except.error "bad key"

/-- Witness for C10: with a malformed key the credential file content is
the plaintext. -/
theorem cookie_cipher_fallback_witness :
    cookie_file_written failingCipher (some "cookiedata") (some "badkey")
      = some "cookiedata" ∧
    encrypt_cookies failingCipher "cookiedata" none = "cookiedata" :=
  ⟨(cookie_cipher_fallback failingCipher failingCipher "cookiedata" "badkey"
      "bad key").2.2.2.2.2.2 (by decide) (by decide) rfl,
   (cookie_cipher_fallback failingCipher failingCipher "cookiedata" "badkey"
      "bad key").1⟩

/-! ## Claim C4: failed preflight fails fast, no attempt spawned -/

/-- C4: when the network-connectivity preflight or the target-URL
reachability check fails, the worker marks the job failed immediately with
an end time and an error set, spawns no external process
(`attemptsSpawned = 0`), and consumes no retries (the `retry_count` field
of the initial record stays absent). -/
theorem preflight_failure_fails_fast (url : String)
    (attempt : Nat → AttemptOutcome) (maxRetries tEnd : Nat)
    (idv jobUrl outdir : String) (t0 : Nat) (sid : Option String) :
    download_worker false true url attempt maxRetries tEnd
        (initial_record idv jobUrl t0 sid outdir)
      = ⟨fail_net (initial_record idv jobUrl t0 sid outdir) tEnd, 0⟩ ∧
    download_worker true false url attempt maxRetries tEnd
        (initial_record idv jobUrl t0 sid outdir)
      = ⟨fail_url (initial_record idv jobUrl t0 sid outdir) url tEnd, 0⟩ ∧
    (fail_net (initial_record idv jobUrl t0 sid outdir) tEnd).status = some "failed" ∧
    (fail_net (initial_record idv jobUrl t0 sid outdir) tEnd).end_time = some tEnd ∧
    (fail_net (initial_record idv jobUrl t0 sid outdir) tEnd).error
      = some "Network connectivity issue" ∧
    (fail_net (initial_record idv jobUrl t0 sid outdir) tEnd).retry_count = none ∧
    (fail_url (initial_record idv jobUrl t0 sid outdir) url tEnd).status = some "failed" ∧
    (fail_url (initial_record idv jobUrl t0 sid outdir) url tEnd).end_time = some tEnd ∧
    (fail_url (initial_record idv jobUrl t0 sid outdir) url tEnd).error
      = some "URL not accessible" ∧
    (fail_url (initial_record idv jobUrl t0 sid outdir) url tEnd).retry_count = none :=
  ⟨rfl, rfl, rfl, rfl, rfl, rfl, rfl, rfl, rfl, rfl⟩

/-! ## Claim C5: exit code 0 completes the job -/

/-- The C5 scenario of the specification: the tool emits the two lines
`"[.] 1 of 2"`, `"[.] 2 of 2"` and exits 0. -/
def c5ScenarioResult : WorkerResult :=
  download_worker true true "http://example.com/g"
    (fun _ => ⟨0, ["[.] 1 of 2", "[.] 2 of 2"], []⟩) 3 7
    (initial_record "d1" "http://example.com/g" 0 none "out")

/-- C5 counterexample: on the spec's own scenario the job completes with
progress 100, but `files_downloaded` is the length of the extracted file
list — which is empty for those lines — so it is 0, not 2 as the claim
states. -/
theorem completed_counts_extracted_files_only :
    c5ScenarioResult.record.status = some "completed" ∧
    c5ScenarioResult.record.progress = some 100 ∧
    c5ScenarioResult.record.files_downloaded = some 0 ∧
    c5ScenarioResult.record.files_downloaded ≠ some 2 := by
  decide

/-- When attempts `0 … k-1` exit non-zero with errors the worker treats
as retriable and attempt `k` (within the retry budget) exits 0, the retry
loop reaches the completion update of attempt `k`, having spawned the
attempts from the current `retry_count` through `k`. -/
theorem workerLoop_success_after_retriable (attempt : Nat → AttemptOutcome)
    (maxRetries tEnd k : Nat)
    (hfail : ∀ j, j < k → (attempt j).exitCode ≠ 0 ∧
      (detect_network_error (attempt j)
        || is_retriable_error (joinErr (attempt j))) = true)
    (hsucc : (attempt k).exitCode = 0) :
    ∀ (fuel rc spawned : Nat) (r : JobRecord),
      rc + fuel = maxRetries → rc ≤ k → k ≤ maxRetries →
      (workerLoop attempt maxRetries tEnd (fuel + 1) r rc spawned).record.status
        = some "completed" ∧
      (workerLoop attempt maxRetries tEnd (fuel + 1) r rc spawned).record.progress
        = some 100 ∧
      (workerLoop attempt maxRetries tEnd (fuel + 1) r rc spawned).record.end_time
        = some tEnd ∧
      (workerLoop attempt maxRetries tEnd (fuel + 1) r rc spawned).record.downloaded_files_list
        = some (extract_downloaded_files ((attempt k).stdoutLines.map stripS)) ∧
      (workerLoop attempt maxRetries tEnd (fuel + 1) r rc spawned).record.files_downloaded
        = some (extract_downloaded_files ((attempt k).stdoutLines.map stripS)).length ∧
      (workerLoop attempt maxRetries tEnd (fuel + 1) r rc spawned).record.retry_count
        = some k ∧
      (workerLoop attempt maxRetries tEnd (fuel + 1) r rc spawned).attemptsSpawned
        = spawned + (k - rc) + 1 := by
  intro fuel
  induction fuel with
  | zero =>
    intro rc spawned r hrc hrk hkm
    have hrk0 : rc = k := by omega
    subst hrk0
    rw [workerLoop, if_pos hsucc]
    refine ⟨rfl, rfl, rfl, rfl, rfl, rfl, ?_⟩
    show spawned + 1 = spawned + (rc - rc) + 1
    omega
  | succ fuel ih =>
    intro rc spawned r hrc hrk hkm
    by_cases hek : rc = k
    · subst hek
      rw [workerLoop, if_pos hsucc]
      refine ⟨rfl, rfl, rfl, rfl, rfl, rfl, ?_⟩
      show spawned + 1 = spawned + (rc - rc) + 1
      omega
    · have hlt : rc < k := by omega
      have h := hfail rc hlt
      have hltm : rc < maxRetries := by omega
      rw [workerLoop, if_neg h.1, if_pos ⟨h.2, hltm⟩]
      obtain ⟨h1, h2, h3, h4, h5, h6, h7⟩ := ih (rc + 1) (spawned + 1)
        ((foldParse (attempt rc).stdoutLines
          (if 0 < rc then set_retrying r rc maxRetries else set_downloading r) 0).1)
        (by omega) (by omega) hkm
      exact ⟨h1, h2, h3, h4, h5, h6, h7.trans (by omega)⟩

/-- C5 amended: whenever any attempt's external tool exits 0 — the first
attempt, or attempt `k ≤ maxRetries` after `k` retriable failures — the
job reaches status `completed` with progress 100, an end time,
`downloaded_files_list` equal to the list extracted from that attempt's
buffered (stripped) stdout lines, `files_downloaded` equal to that list's
length (0 — not 2 — for the lines `"[.] 1 of 2"`, `"[.] 2 of 2"`, which
match no recognized file-path form), and `retry_count = k` after `k + 1`
spawned attempts. -/
theorem exit_zero_completes (url : String) (attempt : Nat → AttemptOutcome)
    (maxRetries tEnd : Nat) (r0 : JobRecord) (k : Nat)
    (hk : k ≤ maxRetries)
    (hfail : ∀ j, j < k → (attempt j).exitCode ≠ 0 ∧
      (detect_network_error (attempt j)
        || is_retriable_error (joinErr (attempt j))) = true)
    (hsucc : (attempt k).exitCode = 0) :
    (download_worker true true url attempt maxRetries tEnd r0).record.status
      = some "completed" ∧
    (download_worker true true url attempt maxRetries tEnd r0).record.progress
      = some 100 ∧
    (download_worker true true url attempt maxRetries tEnd r0).record.end_time
      = some tEnd ∧
    (download_worker true true url attempt maxRetries tEnd r0).record.downloaded_files_list
      = some (extract_downloaded_files ((attempt k).stdoutLines.map stripS)) ∧
    (download_worker true true url attempt maxRetries tEnd r0).record.files_downloaded
      = some (extract_downloaded_files ((attempt k).stdoutLines.map stripS)).length ∧
    (download_worker true true url attempt maxRetries tEnd r0).record.retry_count
      = some k ∧
    (download_worker true true url attempt maxRetries tEnd r0).attemptsSpawned
      = k + 1 := by
  have hw : download_worker true true url attempt maxRetries tEnd r0
      = workerLoop attempt maxRetries tEnd (maxRetries + 1) r0 0 0 := rfl
  obtain ⟨h1, h2, h3, h4, h5, h6, h7⟩ :=
    workerLoop_success_after_retriable attempt maxRetries tEnd k hfail hsucc
      maxRetries 0 0 r0 (by omega) (by omega) hk
  rw [hw]
  exact ⟨h1, h2, h3, h4, h5, h6, h7.trans (by omega)⟩

/-- The sample attempt sequence for the C5 witness: one retriable failure,
then a successful attempt whose stdout holds one recognized file path. -/
def c5SampleAttempt : Nat → AttemptOutcome :=
  fun k => if k = 0 then ⟨1, [], ["Connection refused"]⟩
           else ⟨0, ["/gallery/u/1.jpg"], []⟩

/-- Witness for C5: success on attempt 1 after one retriable failure
completes with the extracted file list, `retry_count = 1`, two spawns. -/
theorem exit_zero_completes_witness :
    (download_worker true true "u" c5SampleAttempt 3 9
        (initial_record "d2" "u" 0 none "out")).record.status = some "completed" ∧
    (download_worker true true "u" c5SampleAttempt 3 9
        (initial_record "d2" "u" 0 none "out")).record.progress = some 100 ∧
    (download_worker true true "u" c5SampleAttempt 3 9
        (initial_record "d2" "u" 0 none "out")).record.end_time = some 9 ∧
    (download_worker true true "u" c5SampleAttempt 3 9
        (initial_record "d2" "u" 0 none "out")).record.downloaded_files_list
      = some ["/gallery/u/1.jpg"] ∧
    (download_worker true true "u" c5SampleAttempt 3 9
        (initial_record "d2" "u" 0 none "out")).record.files_downloaded = some 1 ∧
    (download_worker true true "u" c5SampleAttempt 3 9
        (initial_record "d2" "u" 0 none "out")).record.retry_count = some 1 ∧
    (download_worker true true "u" c5SampleAttempt 3 9
        (initial_record "d2" "u" 0 none "out")).attemptsSpawned = 2 := by
  obtain ⟨h1, h2, h3, h4, h5, h6, h7⟩ :=
    exit_zero_completes "u" c5SampleAttempt 3 9 (initial_record "d2" "u" 0 none "out")
      1 (by omega)
      (fun j hj => by
        have hj0 : j = 0 := by omega
        subst hj0
        exact ⟨by decide, by decide⟩)
      (by decide)
  exact ⟨h1, h2, h3, h4.trans (by decide), h5.trans (by decide), h6, h7⟩

/-! ## Claim C7: progress monotonicity within an attempt -/

/-- C7 counterexample: the parser's stage branch emits a fixed low
percentage after the file-extension branch has already emitted a higher
one, so the emitted progress sequence is not monotone: `"a.jpg"` yields
15, then `"Extracting metadata"` yields 5. -/
theorem progress_can_decrease :
    progressTrace ["a.jpg", "Extracting metadata"] 0 = [15, 5] ∧
    ¬ List.Pairwise (fun a b => a ≤ b) (progressTrace ["a.jpg", "Extracting metadata"] 0) := by
  decide

/-- A line of the file-extension branch parses to counter `c + 1` with the
heuristic progress `min 90 (10 + 5·(c+1))`. -/
theorem parse_progress_ext_line (l : String) (c : Nat) (h : isExtLine l = true) :
    parse_progress l c = (c + 1, ext_updates (c + 1)) := by
  unfold isExtLine at h
  rw [Bool.and_eq_true] at h
  obtain ⟨h1, h2⟩ := h
  rw [Option.isNone_iff_eq_none] at h1
  simp only [String.toList] at h1 h2
  simp [parse_progress, h1, h2]

/-- Over file-extension lines the emitted progress values are the
monotone heuristic values, bounded below by the first one. -/
theorem progressTrace_ext_bound (lines : List String) :
    ∀ c : Nat, (∀ l ∈ lines, isExtLine l = true) →
      List.Pairwise (fun a b => a ≤ b) (progressTrace lines c) ∧
      ∀ x ∈ progressTrace lines c, min 90 (10 + (c + 1) * 5) ≤ x := by
  induction lines with
  | nil =>
    intro c _
    exact ⟨List.Pairwise.nil, by simp [progressTrace]⟩
  | cons l rest ih =>
    intro c h
    have hl : isExtLine l = true := h l (List.mem_cons_self l rest)
    have hrest : ∀ l2 ∈ rest, isExtLine l2 = true :=
      fun l2 hm => h l2 (List.mem_cons_of_mem l hm)
    have htr : progressTrace (l :: rest) c
        = min 90 (10 + (c + 1) * 5) :: progressTrace rest (c + 1) := by
      simp [progressTrace, parse_progress_ext_line l c hl, ext_updates]
    obtain ⟨ihp, ihb⟩ := ih (c + 1) hrest
    have hmono : min 90 (10 + (c + 1) * 5) ≤ min 90 (10 + (c + 1 + 1) * 5) :=
      min_le_min (le_refl 90) (by omega)
    rw [htr]
    constructor
    · rw [List.pairwise_cons]
      exact ⟨fun x hx => le_trans hmono (ihb x hx), ihp⟩
    · intro x hx
      rcases List.mem_cons.mp hx with hx | hx
      · exact le_of_eq hx.symm
      · exact le_trans hmono (ihb x hx)

/-- C7 amended: the emitted progress sequence is *not* monotone over
arbitrary line sequences (see the counterexample: a stage line lowers it);
it is monotonically non-decreasing over any sequence of lines handled by
the file-extension branch, whose heuristic `min 90 (10 + 5·k)` only moves
toward its cap as the running counter grows. -/
theorem ext_lines_progress_monotone (lines : List String) (c : Nat)
    (h : ∀ l ∈ lines, isExtLine l = true) :
    List.Pairwise (fun a b => a ≤ b) (progressTrace lines c) :=
  (progressTrace_ext_bound lines c h).1

/-- Witness for C7 (amended) on three file lines. -/
theorem ext_lines_progress_monotone_witness :
    List.Pairwise (fun a b => a ≤ b)
      (progressTrace ["a.jpg", "b.png", "c.mp4"] 0) :=
  ext_lines_progress_monotone ["a.jpg", "b.png", "c.mp4"] 0 (by decide)

/-! ## Association-list lemmas shared by the cancel/delete/adapter claims -/

theorem alookup_removeAllKey_self {α : Type} (k : String)
    (l : List (String × α)) : alookup k (removeAllKey k l) = none := by
  induction l with
  | nil => rfl
  | cons p rest ih =>
    by_cases hp : p.1 = k
    · simp [removeAllKey, hp, ih]
    · simp [removeAllKey, alookup, hp, ih]

theorem removeAllKey_idem {α : Type} (k : String) (l : List (String × α)) :
    removeAllKey k (removeAllKey k l) = removeAllKey k l := by
  induction l with
  | nil => rfl
  | cons p rest ih =>
    by_cases hp : p.1 = k
    · simp [removeAllKey, hp, ih]
    · simp [removeAllKey, hp, ih]

theorem strElem_removeAllStr_self (k : String) (l : List String) :
    strElem k (removeAllStr k l) = false := by
  induction l with
  | nil => rfl
  | cons s rest ih =>
    by_cases hs : s = k
    · rw [removeAllStr, if_pos hs]
      exact ih
    · rw [removeAllStr, if_neg hs]
      show (s == k || strElem k (removeAllStr k rest)) = false
      rw [ih, Bool.or_false]
      exact beq_eq_false_iff_ne.mpr hs

theorem removeAllStr_idem (k : String) (l : List String) :
    removeAllStr k (removeAllStr k l) = removeAllStr k l := by
  induction l with
  | nil => rfl
  | cons s rest ih =>
    by_cases hs : s = k
    · simp [removeAllStr, hs, ih]
    · simp [removeAllStr, hs, ih]

theorem removePaths_nil (l : List String) : removePaths [] l = l := by
  induction l with
  | nil => rfl
  | cons p rest ih => simp [removePaths, strElem, ih]

theorem alookup_setStatusRec_self (k : String) (f : JobRecord → JobRecord)
    (l : List (String × JobRecord)) (r : JobRecord) (h : alookup k l = some r) :
    alookup k (setStatusRec k f l) = some (f r) := by
  induction l with
  | nil => simp [alookup] at h
  | cons p rest ih =>
    by_cases hp : p.1 = k
    · rw [alookup, if_pos hp] at h
      cases h
      cases p
      simp_all [setStatusRec, alookup]
    · rw [alookup, if_neg hp] at h
      cases p
      simp_all [setStatusRec, alookup]

/-! ## Claim C3: cancellation -/

/-- C3: cancelling a job that has a live process handle (in particular one
in status `downloading`) returns true and leaves the record cancelled with
a non-null end time; a second cancel of the same id, and any cancel of an
id without an active handle, returns false and changes nothing. -/
theorem cancel_download_spec (s : ServiceState) (download_id : String)
    (t t2 : Nat) (r : JobRecord) :
    (strElem download_id s.active_processes = true →
      alookup download_id s.download_status = some r →
      r.status = some "downloading" →
      (cancel_download s download_id t).1 = true ∧
      alookup download_id ((cancel_download s download_id t).2).download_status
        = some (cancel_update t r) ∧
      (cancel_update t r).status = some "cancelled" ∧
      (cancel_update t r).end_time = some t ∧
      (cancel_download ((cancel_download s download_id t).2) download_id t2).1
        = false) ∧
    (strElem download_id s.active_processes = false →
      cancel_download s download_id t = (false, s)) := by
  constructor
  · intro hc hr _
    have h1 : cancel_download s download_id t
        = (true,
            { s with
              active_processes := removeAllStr download_id s.active_processes
              download_status :=
                setStatusRec download_id (cancel_update t) s.download_status }) := by
      rw [cancel_download, if_pos hc]
    refine ⟨by rw [h1], ?_, rfl, rfl, ?_⟩
    · rw [h1]
      exact alookup_setStatusRec_self download_id (cancel_update t)
        s.download_status r hr
    · rw [h1, cancel_download,
        if_neg (by rw [strElem_removeAllStr_self]; exact Bool.false_ne_true)]
  · intro hc
    rw [cancel_download, if_neg (by rw [hc]; exact Bool.false_ne_true)]

/-- The concrete `downloading` record for the C3 witness. -/
def c3Record : JobRecord :=
  set_downloading (initial_record "j1" "http://example.com/a" 0 none "out")

/-- C3 witness state: job `j1` downloading with a live process handle. -/
def c3State : ServiceState :=
  ⟨[("j1", c3Record)], ["j1"], [], []⟩

/-- C3 witness state without any active handle. -/
def c3StateIdle : ServiceState :=
  ⟨[("j2", c3Record)], [], [], []⟩

/-- Witness for C3: concrete cancel on a live `downloading` job, a second
cancel on the same id, and a cancel with no handle. -/
theorem cancel_download_spec_witness :
    (cancel_download c3State "j1" 5).1 = true ∧
    alookup "j1" ((cancel_download c3State "j1" 5).2).download_status
      = some (cancel_update 5 c3Record) ∧
    (cancel_download ((cancel_download c3State "j1" 5).2) "j1" 6).1 = false ∧
    cancel_download c3StateIdle "j2" 5 = (false, c3StateIdle) := by
  have h1 := (cancel_download_spec c3State "j1" 5 6 c3Record).1 (by decide) rfl rfl
  have h2 := (cancel_download_spec c3StateIdle "j2" 5 6 c3Record).2 rfl
  exact ⟨h1.1, h1.2.1, h1.2.2.2.2, h2⟩

/-! ## Claim C8: deletion is idempotent and removes the credential file -/

/-- C8: `delete_download` always returns true (deleting a non-existent id
succeeds), deleting twice leaves the state of the first deletion
unchanged, and afterwards `get_download_status` is not-found and the
per-job cookie ciphertext file is gone. -/
theorem delete_download_idempotent (s : ServiceState) (download_id : String) :
    (delete_download s download_id).1 = true ∧
    delete_download ((delete_download s download_id).2) download_id
      = (true, (delete_download s download_id).2) ∧
    get_download_status ((delete_download s download_id).2) download_id = none ∧
    strElem download_id ((delete_download s download_id).2).cookieFiles = false := by
  refine ⟨rfl, ?_, ?_, ?_⟩
  · rw [delete_download, delete_download]
    simp [alookup_removeAllKey_self, removeAllKey_idem, removeAllStr_idem,
      removePaths_nil]
  · rw [delete_download]
    exact alookup_removeAllKey_self download_id s.download_status
  · rw [delete_download]
    exact strElem_removeAllStr_self download_id s.cookieFiles

/-! ## Claim C2: session isolation in the adapter -/

/-- The record of caller A's job used in the C2 counterexample. -/
def c2SampleRecord : JobRecord :=
  initial_record "j1" "http://example.com/a" 0 (some "A") "out"

/-- C2 counterexample state: the store holds `j1`, created by caller A;
caller B's ownership set is empty. -/
def c2State : AdapterState :=
  ⟨[("j1", c2SampleRecord)], [("A", ["j1"]), ("B", [])]⟩

/-- C2 counterexample: the adapter's `get_download` method performs no
session-membership check, so for caller B (a non-member) it returns the
record of `j1` while returning not-found for the truly non-existent `j2` —
a non-member id is distinguishable from a non-existent one through that
adapter operation, refuting the claim's "every adapter operation". -/
theorem get_download_leaks_existence :
    alookup "j1" c2State.store = some c2SampleRecord ∧
    strElem "j1" (sessionIds c2State "B") = false ∧
    adapter_get_download c2State "j1" = some c2SampleRecord ∧
    adapter_get_download c2State "j2" = none ∧
    adapter_get_download c2State "j1" ≠ adapter_get_download c2State "j2" := by
  decide

/-- C2 amended: through `get_download_status`, `download_exists` and
`list_all_downloads` (the membership-checked operations, on which
cancel/delete also gate), an id outside the caller's ownership set is
treated exactly like a non-existent id — not-found, false, absent from the
listing — even when the store holds the record; the adapter's
`get_download` method, however, skips the membership check. -/
theorem non_member_id_not_found (st : AdapterState) (caller download_id : String)
    (h : strElem download_id (sessionIds st caller) = false) :
    adapter_get_download_status st caller download_id = none ∧
    adapter_download_exists st caller download_id = false ∧
    ∀ r ∈ adapter_list_all_downloads st caller, r.id ≠ some download_id := by
  have hex : adapter_download_exists st caller download_id = false := by
    rw [adapter_download_exists, h, Bool.and_false]
  refine ⟨?_, hex, ?_⟩
  · rw [adapter_get_download_status,
      if_neg (by rw [hex]; exact Bool.false_ne_true)]
  · intro r hr hid
    rw [adapter_list_all_downloads, List.mem_filter] at hr
    have h2 := hr.2
    rw [hid] at h2
    have h3 : strElem download_id (sessionIds st caller) = true := h2
    rw [h] at h3
    exact Bool.false_ne_true h3

/-- Witness for C2 (amended): caller B cannot see A's job `j1` through the
membership-checked operations. -/
theorem non_member_id_not_found_witness :
    adapter_get_download_status c2State "B" "j1" = none ∧
    adapter_download_exists c2State "B" "j1" = false :=
  ⟨(non_member_id_not_found c2State "B" "j1" (by decide)).1,
   (non_member_id_not_found c2State "B" "j1" (by decide)).2.1⟩

/-! ## Claim C1: transient failures exhaust the retry budget -/

/-- When every attempt up to the retry bound exits non-zero with a
transient-classified error text, the retry loop consumes all its fuel and
terminates in the failure update of the last attempt. -/
theorem workerLoop_all_retriable (attempt : Nat → AttemptOutcome)
    (maxRetries tEnd : Nat)
    (hall : ∀ k, k ≤ maxRetries →
      (attempt k).exitCode ≠ 0 ∧ is_retriable_error (joinErr (attempt k)) = true) :
    ∀ (fuel rc spawned : Nat) (r : JobRecord), rc + fuel = maxRetries →
      (workerLoop attempt maxRetries tEnd (fuel + 1) r rc spawned).record.status
        = some "failed" ∧
      (workerLoop attempt maxRetries tEnd (fuel + 1) r rc spawned).record.retry_count
        = some maxRetries ∧
      (workerLoop attempt maxRetries tEnd (fuel + 1) r rc spawned).record.error
        = some (joinErr (attempt maxRetries)) ∧
      (workerLoop attempt maxRetries tEnd (fuel + 1) r rc spawned).attemptsSpawned
        = spawned + fuel + 1 := by
  intro fuel
  induction fuel with
  | zero =>
    intro rc spawned r hrc
    have hrc0 : rc = maxRetries := by omega
    subst hrc0
    have h := hall rc le_rfl
    rw [workerLoop, if_neg h.1, if_neg (fun hc => absurd hc.2 (Nat.lt_irrefl rc))]
    exact ⟨rfl, rfl, rfl, rfl⟩
  | succ fuel ih =>
    intro rc spawned r hrc
    have hlt : rc < maxRetries := by omega
    have h := hall rc (Nat.le_of_lt hlt)
    have hcond : (detect_network_error (attempt rc)
        || is_retriable_error (joinErr (attempt rc))) = true := by
      rw [h.2, Bool.or_true]
    rw [workerLoop, if_neg h.1, if_pos ⟨hcond, hlt⟩]
    obtain ⟨h1, h2, h3, h4⟩ := ih (rc + 1) (spawned + 1)
      ((foldParse (attempt rc).stdoutLines
        (if 0 < rc then set_retrying r rc maxRetries else set_downloading r) 0).1)
      (by omega)
    exact ⟨h1, h2, h3, h4.trans (by omega)⟩

/-- C1: when the external tool exits non-zero on every attempt with an
error text the failure classifier marks transient, the worker spawns the
initial attempt plus exactly `maxRetries` retries (the configured maximum,
3 by default), then sets status `failed` with `retry_count = maxRetries`
and the error field holding the captured (joined stderr) error text of the
final attempt. -/
theorem transient_errors_exhaust_retries (url : String)
    (attempt : Nat → AttemptOutcome) (maxRetries tEnd : Nat) (r0 : JobRecord)
    (hall : ∀ k, k ≤ maxRetries →
      (attempt k).exitCode ≠ 0 ∧ is_retriable_error (joinErr (attempt k)) = true) :
    (download_worker true true url attempt maxRetries tEnd r0).record.status
      = some "failed" ∧
    (download_worker true true url attempt maxRetries tEnd r0).record.retry_count
      = some maxRetries ∧
    (download_worker true true url attempt maxRetries tEnd r0).record.error
      = some (joinErr (attempt maxRetries)) ∧
    (download_worker true true url attempt maxRetries tEnd r0).attemptsSpawned
      = maxRetries + 1 := by
  have hw : download_worker true true url attempt maxRetries tEnd r0
      = workerLoop attempt maxRetries tEnd (maxRetries + 1) r0 0 0 := rfl
  obtain ⟨h1, h2, h3, h4⟩ :=
    workerLoop_all_retriable attempt maxRetries tEnd hall maxRetries 0 0 r0 (by omega)
  rw [hw]
  exact ⟨h1, h2, h3, h4.trans (by omega)⟩

/-- The persistently failing attempt of the C1 witness: exit code 1 with
stderr `"Connection refused"` on every attempt. -/
def c1Attempt : Nat → AttemptOutcome :=
  fun _ => ⟨1, [], ["Connection refused"]⟩

/-- Witness for C1: with the default retry maximum 3, four attempts are
spawned and the job fails with `retry_count = 3` and the captured error
text `"Connection refused"`. -/
theorem transient_errors_exhaust_retries_witness :
    (download_worker true true "http://example.com/x" c1Attempt
        defaultMaxRetries 9 (initial_record "d1" "http://example.com/x" 0 none "out")).record.status
      = some "failed" ∧
    (download_worker true true "http://example.com/x" c1Attempt
        defaultMaxRetries 9 (initial_record "d1" "http://example.com/x" 0 none "out")).record.retry_count
      = some 3 ∧
    (download_worker true true "http://example.com/x" c1Attempt
        defaultMaxRetries 9 (initial_record "d1" "http://example.com/x" 0 none "out")).record.error
      = some "Connection refused" ∧
    (download_worker true true "http://example.com/x" c1Attempt
        defaultMaxRetries 9 (initial_record "d1" "http://example.com/x" 0 none "out")).attemptsSpawned
      = 4 := by
  obtain ⟨h1, h2, h3, h4⟩ := transient_errors_exhaust_retries "http://example.com/x"
    c1Attempt defaultMaxRetries 9 (initial_record "d1" "http://example.com/x" 0 none "out")
    (fun k _ =>
      ⟨by show (1 : Int) ≠ 0; decide,
       by show is_retriable_error (joinErr ⟨1, [], ["Connection refused"]⟩) = true
          decide⟩)
  exact ⟨h1, h2, h3.trans (by decide), h4⟩

end GDLWeb
